import Mathlib

/-
Verification of the telegram-secretary message-triage core.

The definitions below are a shallow embedding of the Python sources:
  models.py     — the Message record
  utils.py      — rule-based and oracle-backed scoring
  userbot.py    — filter caches, cache-refresh sweeps, ingestion decision,
                  save_message score resolution, warning marking
  scheduler.py  — digest selection (get_unlabeled_messages)
  bot.py        — label and mute callback handlers

Machine integers are modelled as Int/Nat (Python ints are unbounded);
datetimes are modelled as Int instants ordered like naive-UTC datetimes;
SQL rows are Lean structures and tables are lists of rows; the Python
dict of group sizes is an association list with distinct keys maintained
by a replace-on-insert helper; Python sets of chat ids are lists with
membership-guarded insertion.  External collaborators (Telegram
transport, the scoring oracle, the database driver) appear as explicit
outcome parameters: each modelled operation takes the collaborator's
observable result and is otherwise a pure state transformer.
-/

/- ===== models.py : the Message table (class Message, models.py:29-86) ===== -/

structure Message where
  id : Nat
  telegram_message_id : Int
  chat_id : Int
  chat_title : Option String
  chat_type : Option String
  user_id : Int
  user_name : Option String
  message_text : Option String
  timestamp : Int
  has_mention : Bool
  is_question : Bool
  message_length : Option Nat
  topic_summary : Option String
  priority_score : Int
  label : Option String
  labeled_at : Option Int
  included_in_summary : Bool
  summary_sent_at : Option Int
  warning_sent : Bool
  warning_sent_at : Option Int
deriving DecidableEq

/- ===== utils.py : scoring constants (utils.py:27-54) ===== -/

def SCORE_MENTION : Int := 3

def SCORE_QUESTION : Int := 2

def SCORE_LONG_MESSAGE : Int := 1

def SCORE_HIGH_PRIORITY_USER : Int := 2

def MIN_LONG_MESSAGE_LENGTH : Nat := 100

def AI_PRIORITY_SCORE_MIN : Int := 0

def AI_PRIORITY_SCORE_MAX : Int := 10

def MUTE_FOREVER_TIMESTAMP : Int := 2147483647

/-- utils.py:57-89 `calculate_priority_score`.  The Python guard
`if message_text and len(message_text) > 100` is false both for None and
for the empty string; the model's match covers both since `100 < 0` is
false. -/
def calculate_priority_score (message_text : Option String)
    (has_mention is_question is_high_priority_user : Bool) : Int :=
  (if has_mention then SCORE_MENTION else 0)
  + (if is_question then SCORE_QUESTION else 0)
  + (if (match message_text with
         | some t => decide (MIN_LONG_MESSAGE_LENGTH < t.length)
         | none => false) then SCORE_LONG_MESSAGE else 0)
  + (if is_high_priority_user then SCORE_HIGH_PRIORITY_USER else 0)

/- ===== utils.py : oracle-backed scoring (utils.py:324-508) ===== -/

/-- Outcome of the single request/response call to the scoring oracle
(ollama).  `response` is the raw text the oracle returned; the other
constructors are the exception classes caught at utils.py:496-508
(asyncio.TimeoutError, generic transport Exception, ImportError for an
absent client library). -/
inductive OracleOutcome where
  | response (text : String)
  | timeout
  | transportError
  | notInstalled
deriving DecidableEq

/-- Longest leading run of ASCII digits of a character list. -/
def takeDigits : List Char → List Char
  | [] => []
  | c :: cs => if c.isDigit then c :: takeDigits cs else []

/-- First maximal run of ASCII digits, like the first match of the
Python regex for one-or-more digits in `re.findall` (utils.py:481). -/
def firstDigitRun : List Char → Option (List Char)
  | [] => none
  | c :: cs => if c.isDigit then some (c :: takeDigits cs) else firstDigitRun cs

def digitsVal (ds : List Char) : Nat :=
  ds.foldl (fun acc c => acc * 10 + (c.toNat - 48)) 0

/-- The integer value of the first digit run of the oracle's response
(utils.py:481-483), None when the response holds no digit. -/
def extractFirstNat (s : String) : Option Nat :=
  (firstDigitRun s.data).map digitsVal

/-- utils.py:324-508 `calculate_ai_priority_score`, abstracted over the
oracle call's outcome.  Empty/absent text returns AI_PRIORITY_SCORE_MIN
without calling the oracle (utils.py:354-355); a numeric response is
clamped to [0,10] (utils.py:483-485); a non-numeric response and every
caught exception yield None, the fallback signal (utils.py:489-508). -/
def calculate_ai_priority_score (message_text : Option String)
    (outcome : OracleOutcome) : Option Int :=
  match message_text with
  | none => some AI_PRIORITY_SCORE_MIN
  | some t =>
    if t.length < 1 then some AI_PRIORITY_SCORE_MIN
    else
      match outcome with
      | .response r =>
        match extractFirstNat r with
        | some n => some (max AI_PRIORITY_SCORE_MIN (min AI_PRIORITY_SCORE_MAX (Int.ofNat n)))
        | none => none
      | _ => none

/-- userbot.py:543-572 — the score persisted by `save_message`: the AI
score when AI is enabled and returned one, else the rule-based score
computed from the same attributes. -/
def save_message_score (ai_enabled : Bool) (message_text : Option String)
    (outcome : OracleOutcome) (has_mention is_question is_high_priority_user : Bool) : Int :=
  match (if ai_enabled then calculate_ai_priority_score message_text outcome else none) with
  | some s => s
  | none => calculate_priority_score message_text has_mention is_question is_high_priority_user

/-- True when the oracle is actually called: text present and nonempty
(utils.py:354 short-circuits otherwise). -/
def oracle_called (message_text : Option String) : Bool :=
  match message_text with
  | some t => decide (1 ≤ t.length)
  | none => false

/-- True when the oracle call fails in any of the modelled ways:
timeout, transport error, client library missing, or a response with no
numeric token. -/
def oracle_call_failed (o : OracleOutcome) : Bool :=
  match o with
  | .response r => (extractFirstNat r).isNone
  | _ => true

/-- models.py:29-86 defaults as used by `save_message`
(userbot.py:577-592): the freshly persisted record carries no label and
both tracking flags start false. -/
def save_message_record (id : Nat) (telegram_message_id chat_id user_id : Int)
    (chat_title user_name message_text topic_summary : Option String)
    (chat_type : String) (timestamp : Int) (has_mention is_question : Bool)
    (message_length : Option Nat) (priority_score : Int) : Message :=
  { id := id
    telegram_message_id := telegram_message_id
    chat_id := chat_id
    chat_title := chat_title
    chat_type := some chat_type
    user_id := user_id
    user_name := user_name
    message_text := message_text
    timestamp := timestamp
    has_mention := has_mention
    is_question := is_question
    message_length := message_length
    topic_summary := topic_summary
    priority_score := priority_score
    label := none
    labeled_at := none
    included_in_summary := false
    summary_sent_at := none
    warning_sent := false
    warning_sent_at := none }

/- ===== A kernel-computable model of SQL ORDER BY ===== -/

/-- Ordered insertion: place `a` before the first element it is
le-related to. -/
def insertOrd {α : Type} (le : α → α → Bool) (a : α) : List α → List α
  | [] => [a]
  | b :: bs => if le a b then a :: b :: bs else b :: insertOrd le a bs

/-- Insertion sort by a boolean relation; models the ORDER BY clause. -/
def sortOrd {α : Type} (le : α → α → Bool) : List α → List α
  | [] => []
  | a :: as => insertOrd le a (sortOrd le as)

/- ===== userbot.py : the filter caches ===== -/

/-- userbot.py:463-470 `get_muted_chats` returns a copy of the mute
cache; membership in the copy equals membership in the cache. -/
def get_muted_chats (muted : List Int) : List Int := muted

/-- userbot.py:473-487 `add_muted_chat`: optimistic set insertion into
the mute cache. -/
def add_muted_chat (chat_id : Int) (muted : List Int) : List Int :=
  if chat_id ∈ muted then muted else chat_id :: muted

/-- userbot.py:489-502 `remove_muted_chat`: optimistic set discard. -/
def remove_muted_chat (chat_id : Int) (muted : List Int) : List Int :=
  muted.filter (fun c => decide (c ≠ chat_id))

/-- userbot.py:505-515 `get_large_group_ids`: ids of cached groups whose
size is strictly greater than `max_size`. -/
def get_large_group_ids (max_size : Nat) (group_sizes : List (Int × Nat)) : List Int :=
  (group_sizes.filter (fun p => decide (max_size < p.2))).map Prod.fst

/-- Lookup in the group-size cache, `_group_sizes.get(chat.id)`
(userbot.py:725). -/
def sizesLookup (group_sizes : List (Int × Nat)) (chat_id : Int) : Option Nat :=
  (group_sizes.find? (fun p => decide (p.1 = chat_id))).map Prod.snd

/-- Python-dict insertion into the group-size association list:
replace the entry when the key exists, append otherwise. -/
def dictInsert (d : List (Int × Nat)) (k : Int) (v : Nat) : List (Int × Nat) :=
  if k ∈ d.map Prod.fst then d.map (fun p => if p.1 = k then (k, v) else p)
  else d ++ [(k, v)]

/-- Set insertion used while a refresh sweep accumulates,
`muted_set.add(chat_id)` (userbot.py:325). -/
def setInsert (x : Int) (s : List Int) : List Int :=
  if x ∈ s then s else x :: s

/- ===== userbot.py : cache refresh sweeps ===== -/

/-- The shapes `mute_until` can take in a dialog's notify settings
(userbot.py:310-322): the literal True, an integer Unix timestamp, or a
datetime. -/
inductive MuteUntilVal where
  | boolTrue
  | intVal (t : Int)
  | dtVal (t : Int)
deriving DecidableEq

structure NotifySettings where
  silent : Bool
  mute_until : Option MuteUntilVal
deriving DecidableEq

/-- userbot.py:296-325 — per-dialog mute determination: absent settings
mean not muted (the dialog is skipped); the silent flag marks muted, but
a present `mute_until` value overrides it (the Python code reassigns
`is_muted` in the int and datetime branches). -/
def dialog_is_muted (now : Int) (ns : Option NotifySettings) : Bool :=
  match ns with
  | none => false
  | some s =>
    match s.mute_until with
    | none => s.silent
    | some .boolTrue => true
    | some (.intVal t) => if t = MUTE_FOREVER_TIMESTAMP then true else decide (now < t)
    | some (.dtVal t) => decide (now < t)

structure MutedDialog where
  chat_id : Int
  notify_settings : Option NotifySettings
deriving DecidableEq

/-- One step of the mute-refresh sweep as the code observes it:
a dialog yielded by `iter_dialogs`, an exception raised while examining
one dialog (caught at userbot.py:327-330 and skipped), or a
FloodWaitError raised by the dialog enumeration itself, which escapes
the per-dialog handler and aborts the whole refresh via the outer
handler (userbot.py:341-347). -/
inductive MuteSweepEvent where
  | dialog (d : MutedDialog)
  | dialogError
  | floodWait (seconds : Nat)
deriving DecidableEq

/-- The sweep loop of `refresh_muted_chats` (userbot.py:290-333): build
`muted_set` dialog by dialog; a per-dialog error is skipped; an
enumeration-level FloodWaitError reaches the outer except, so the
function returns with the cache untouched and the accumulated set
discarded; on completion the cache is replaced wholesale. -/
def refresh_muted_chats_go (cache : List Int) (now : Int) :
    List MuteSweepEvent → List Int → List Int
  | [], acc => acc
  | .dialog d :: rest, acc =>
    refresh_muted_chats_go cache now rest
      (if dialog_is_muted now d.notify_settings then setInsert d.chat_id acc else acc)
  | .dialogError :: rest, acc => refresh_muted_chats_go cache now rest acc
  | .floodWait _ :: _, _ => cache

/-- userbot.py:274-347 `refresh_muted_chats`: the new value of the
`_muted_chats` cache after one sweep. -/
def refresh_muted_chats (events : List MuteSweepEvent) (cache : List Int) (now : Int) :
    List Int :=
  refresh_muted_chats_go cache now events []

def noFloodMute (events : List MuteSweepEvent) : Bool :=
  events.all (fun e => match e with | .floodWait _ => false | _ => true)

/-- One step of the group-size sweep as the code observes it: a
non-group dialog (skipped), a group dialog whose size lookup produced a
count or nothing, a FloodWaitError from the full-info request (break:
userbot.py:389-399 and 408-419), or any other per-dialog exception
(skip: userbot.py:431-434). -/
inductive GroupSweepEvent where
  | nonGroup
  | groupDialog (chat_id : Int) (count : Option Nat)
  | sizeFloodWait (seconds : Nat)
  | dialogError
deriving DecidableEq

/-- The sweep loop of `refresh_group_sizes` (userbot.py:366-434): build
`sizes_dict`; store a count when one was obtained; break on
FloodWaitError keeping what was gathered; skip other per-dialog
errors. -/
def refresh_group_sizes_go : List GroupSweepEvent → List (Int × Nat) → List (Int × Nat)
  | [], acc => acc
  | .nonGroup :: rest, acc => refresh_group_sizes_go rest acc
  | .groupDialog chat_id (some c) :: rest, acc =>
    refresh_group_sizes_go rest (dictInsert acc chat_id c)
  | .groupDialog _ none :: rest, acc => refresh_group_sizes_go rest acc
  | .sizeFloodWait _ :: _, acc => acc
  | .dialogError :: rest, acc => refresh_group_sizes_go rest acc

/-- userbot.py:350-460 `refresh_group_sizes`: the cache is replaced only
when the sweep gathered at least one entry (userbot.py:436-452). -/
def refresh_group_sizes (events : List GroupSweepEvent) (cache : List (Int × Nat)) :
    List (Int × Nat) :=
  let gathered := refresh_group_sizes_go events []
  if gathered.isEmpty then cache else gathered

/- ===== userbot.py : ingestion decision (handle_new_message, 673-819) ===== -/

inductive DropReason where
  | selfSender
  | botSender
  | emptyText
  | oversizedGroup
  | mutedChat
deriving DecidableEq

inductive IngestDecision where
  | drop (reason : DropReason)
  | process
deriving DecidableEq

/-- Python `sender and sender.id == target` (userbot.py:682, 687). -/
def matchesId (sender : Option Int) (target : Int) : Bool :=
  match sender with
  | some s => decide (s = target)
  | none => false

/-- Python `not message.raw_text` (userbot.py:693): absent or empty. -/
def textFalsy (raw_text : Option String) : Bool :=
  match raw_text with
  | some t => decide (t.length = 0)
  | none => true

/-- `chat_type in ["group", "supergroup", "gigagroup"]`
(userbot.py:717). -/
def isGroupType (chat_type : String) : Bool :=
  decide (chat_type = "group") || decide (chat_type = "supergroup")
  || decide (chat_type = "gigagroup")

/-- The message event as the decision logic consumes it.  `sender` is
the sender's user id when a sender entity is attached.  The resolved
filter preferences (user row when present, else static config:
userbot.py:719-720, 746) are passed as plain parameters. -/
structure IngestInput where
  sender : Option Int
  client_user_id : Int
  bot_user_id : Int
  raw_text : Option String
  chat_type : String
  chat_id : Int
deriving DecidableEq

/-- userbot.py:753 — the identifier checked against the mute cache: the
counterpart's id for private chats, the conversation id otherwise.  For
a private chat a sender entity is always attached; `getD 0` covers the
unreachable none case. -/
def mute_check_id (inp : IngestInput) : Int :=
  if inp.chat_type = "private" then inp.sender.getD 0 else inp.chat_id

/-- userbot.py:673-765 — the drop/process decision of
`handle_new_message` up to the database write: self and bot senders are
skipped, textless messages are skipped, a group-type chat with a cached
participant count at or above the threshold is dropped when the
ignore-large-groups toggle is on (an absent cache entry falls open:
userbot.py:727, 739-742), and a chat whose mute-check id is cached as
muted is dropped when the ignore-muted toggle is on. -/
def handle_new_message_decision (inp : IngestInput)
    (ignore_large_groups : Bool) (max_group_size : Nat) (ignore_muted_chats : Bool)
    (group_sizes : List (Int × Nat)) (muted : List Int) : IngestDecision :=
  if matchesId inp.sender inp.client_user_id then .drop .selfSender
  else if matchesId inp.sender inp.bot_user_id then .drop .botSender
  else if textFalsy inp.raw_text then .drop .emptyText
  else if isGroupType inp.chat_type && ignore_large_groups
       && (match sizesLookup group_sizes inp.chat_id with
           | some c => decide (max_group_size ≤ c)
           | none => false) then .drop .oversizedGroup
  else if ignore_muted_chats && decide (mute_check_id inp ∈ muted) then .drop .mutedChat
  else .process

/- ===== scheduler.py : digest selection (get_unlabeled_messages, 32-131) ===== -/

/-- scheduler.py:56-68 — the excluded chat-id set: the muted chats when
ignore_muted is on, plus the oversized groups when ignore_large_groups
is on. -/
def digest_excluded_chat_ids (ignore_muted : Bool) (muted : List Int)
    (ignore_large_groups : Bool) (max_group_size : Nat)
    (group_sizes : List (Int × Nat)) : List Int :=
  (if ignore_muted then muted else [])
  ++ (if ignore_large_groups then get_large_group_ids max_group_size group_sizes else [])

/-- scheduler.py:100-109 — the WHERE clause of the selection query; the
chat-exclusion conjunct is only added when the excluded set is nonempty
(scheduler.py:108), which is equivalent to always requiring
non-membership. -/
def msgMatches (cutoff min_priority : Int) (excluded : List Int) (m : Message) : Bool :=
  decide (cutoff ≤ m.timestamp)
  && m.label.isNone
  && !m.included_in_summary
  && decide (min_priority ≤ m.priority_score)
  && (excluded.isEmpty || !(decide (m.chat_id ∈ excluded)))

/-- scheduler.py:111-114 ORDER BY priority_score DESC, timestamp DESC:
`a` comes no later than `b` in the output order. -/
def msgLE (a b : Message) : Bool :=
  decide (b.priority_score < a.priority_score)
  || (decide (a.priority_score = b.priority_score) && decide (b.timestamp ≤ a.timestamp))

/-- scheduler.py:97-117 — the rows the SELECT returns: filtered rows,
ordered by score then recency, capped at `limit`. -/
def digest_select (db : List Message) (cutoff min_priority : Int)
    (excluded : List Int) (limit : Nat) : List Message :=
  (sortOrd msgLE (db.filter (msgMatches cutoff min_priority excluded))).take limit

/-- scheduler.py:119-129 — the UPDATE marking the selected ids as
included in the summary. -/
def digest_mark (db : List Message) (ids : List Nat) (now : Int) : List Message :=
  db.map (fun m =>
    if m.id ∈ ids then
      { m with included_in_summary := true, summary_sent_at := some now }
    else m)

/-- scheduler.py:32-131 `get_unlabeled_messages`: one invocation's
SELECT followed by its UPDATE over the same table; returns the selected
rows and the updated table. -/
def get_unlabeled_messages (db : List Message) (cutoff min_priority : Int)
    (excluded : List Int) (limit : Nat) (now : Int) : List Message × List Message :=
  let sel := digest_select db cutoff min_priority excluded limit
  (sel, digest_mark db (sel.map Message.id) now)

/- ===== bot.py : feedback handlers ===== -/

/-- utils.py:165-171 `get_priority_emoji`. -/
def get_priority_emoji (label : Option String) : String :=
  match label with
  | some "high" => "🔴"
  | some "medium" => "🟡"
  | some "low" => "🟢"
  | _ => "⚪"

/-- bot.py:249-250 — the confirmation text shown after labeling;
`str.title` on a single lowercase word is capitalization. -/
def format_label_confirmed (label : String) : String :=
  get_priority_emoji (some label) ++ " Marked as *" ++ label.capitalize ++ "* Priority"

inductive LabelReply where
  | invalidLabel (label : String)
  | notFound
  | confirmed (text : String)
deriving DecidableEq

/-- bot.py:88-262 `handle_label_callback` after callback parsing: an
invalid priority label is rejected (bot.py:179-195), an absent record
reports not-found (bot.py:211-215), otherwise the record's label and
label timestamp are set (bot.py:217-225) and the confirmation is shown
(bot.py:248-256). -/
def handle_label_callback (db : List Message) (message_id : Nat) (label : String)
    (now : Int) : List Message × LabelReply :=
  if !(decide (label = "high") || decide (label = "medium") || decide (label = "low")) then
    (db, .invalidLabel label)
  else
    match db.find? (fun m => decide (m.id = message_id)) with
    | none => (db, .notFound)
    | some _ =>
      (db.map (fun m =>
        if m.id = message_id then { m with label := some label, labeled_at := some now }
        else m),
       .confirmed (format_label_confirmed label))

inductive MuteReply where
  | unknownDuration
  | notFound
  | muteError
  | confirmed (duration_display : String)
deriving DecidableEq

/-- bot.py:395-401 — the duration selection bound to each mute action. -/
def duration_display : String → Option String
  | "mute_1h" => some "1 hour"
  | "mute_8h" => some "8 hours"
  | "mute_1d" => some "1 day"
  | "mute_1w" => some "1 week"
  | "mute_forever" => some "forever"
  | _ => none

/-- bot.py:366-567 `handle_mute_callback` after callback parsing,
abstracted over the transport call's outcome: unknown durations and
absent records are rejected (bot.py:403-405, 417-419); a failing
transport call reports an error and leaves the cache alone
(bot.py:518-526); a successful one adds the chat to the mute cache
before the confirmation is shown (bot.py:487-503, 528-552). -/
def handle_mute_callback (db : List Message) (message_id : Nat) (chat_id : Int)
    (action : String) (transport_ok : Bool) (muted : List Int) : List Int × MuteReply :=
  match duration_display action with
  | none => (muted, .unknownDuration)
  | some disp =>
    match db.find? (fun m => decide (m.id = message_id)) with
    | none => (muted, .notFound)
    | some _ =>
      if transport_ok then (add_muted_chat chat_id muted, .confirmed disp)
      else (muted, .muteError)

/- ===== The record-mutating core operations (for the flag invariant) ===== -/

/-- The three UPDATE statements the core runs against the messages
table: the digest marking (scheduler.py:119-129), the warning marking
(send_warning_for_message, userbot.py:194-224), and the label update
(handle_label_callback, bot.py:217-225).  The maintenance deletion
script is out of core scope. -/
inductive CoreOp where
  | markIncluded (ids : List Nat) (now : Int)
  | markWarningSent (message_id : Nat) (now : Int)
  | applyLabel (message_id : Nat) (label : String) (now : Int)
deriving DecidableEq

/-- The effect of one core UPDATE on one row. -/
def recordStep (op : CoreOp) (m : Message) : Message :=
  match op with
  | .markIncluded ids now =>
    if m.id ∈ ids then { m with included_in_summary := true, summary_sent_at := some now }
    else m
  | .markWarningSent message_id now =>
    if m.id = message_id then { m with warning_sent := true, warning_sent_at := some now }
    else m
  | .applyLabel message_id label now =>
    if m.id = message_id then { m with label := some label, labeled_at := some now }
    else m

/-- The effect of one core UPDATE on the whole table. -/
def applyCoreOp (db : List Message) (op : CoreOp) : List Message :=
  db.map (recordStep op)

/- ===== Concrete fixtures used by witnesses and counterexamples ===== -/

/-- A qualifying record: unlabeled, not yet included, question message
in a private chat. -/
def mkMsg (id : Nat) (chat_id : Int) (timestamp : Int) (priority_score : Int) : Message :=
  { id := id
    telegram_message_id := Int.ofNat id
    chat_id := chat_id
    chat_title := none
    chat_type := some "private"
    user_id := 1
    user_name := none
    message_text := some "hi?"
    timestamp := timestamp
    has_mention := false
    is_question := true
    message_length := some 3
    topic_summary := none
    priority_score := priority_score
    label := none
    labeled_at := none
    included_in_summary := false
    summary_sent_at := none
    warning_sent := false
    warning_sent_at := none }

/-- A twelve-row table: rows 1-10 qualify for the digest (scores 3, 2,
4, 9, 1, 2, 1, 2, 4, 5 at timestamps 10-19), row 11 is already labeled,
row 12 is already included. -/
def demoDb : List Message :=
  [ mkMsg 1 100 10 3, mkMsg 2 100 11 2, mkMsg 3 100 12 4, mkMsg 4 100 13 9,
    mkMsg 5 100 14 1, mkMsg 6 100 15 2, mkMsg 7 100 16 1, mkMsg 8 100 17 2,
    mkMsg 9 100 18 4, mkMsg 10 100 19 5,
    { mkMsg 11 100 20 9 with label := some "high" },
    { mkMsg 12 100 21 9 with included_in_summary := true } ]

/- ========================================================================
   Theorems
   ======================================================================== -/

/- ----- order-by model lemmas ----- -/

theorem insertOrd_perm {α : Type} (le : α → α → Bool) (a : α) :
    ∀ l : List α, (insertOrd le a l).Perm (a :: l)
  | [] => List.Perm.refl _
  | b :: bs => by
    simp only [insertOrd]
    split
    · exact List.Perm.refl _
    · exact ((insertOrd_perm le a bs).cons b).trans (List.Perm.swap a b bs)

theorem sortOrd_perm {α : Type} (le : α → α → Bool) :
    ∀ l : List α, (sortOrd le l).Perm l
  | [] => List.Perm.refl _
  | a :: as => (insertOrd_perm le a (sortOrd le as)).trans ((sortOrd_perm le as).cons a)

theorem mem_sortOrd {α : Type} {le : α → α → Bool} {x : α} {l : List α} :
    x ∈ sortOrd le l ↔ x ∈ l :=
  (sortOrd_perm le l).mem_iff

theorem mem_insertOrd {α : Type} {le : α → α → Bool} {x a : α} {l : List α} :
    x ∈ insertOrd le a l ↔ x = a ∨ x ∈ l := by
  rw [(insertOrd_perm le a l).mem_iff]
  simp

theorem insertOrd_pairwise {α : Type} {le : α → α → Bool}
    (htrans : ∀ a b c, le a b = true → le b c = true → le a c = true)
    (htot : ∀ a b, le a b = true ∨ le b a = true) (a : α) :
    ∀ l : List α, List.Pairwise (fun x y => le x y = true) l →
      List.Pairwise (fun x y => le x y = true) (insertOrd le a l)
  | [], _ => by simp [insertOrd]
  | b :: bs, h => by
    rcases List.pairwise_cons.mp h with ⟨hb, hbs⟩
    simp only [insertOrd]
    split
    next hab =>
      refine List.pairwise_cons.mpr ⟨?_, h⟩
      intro c hc
      rcases List.mem_cons.mp hc with rfl | hc
      · exact hab
      · exact htrans a b c hab (hb c hc)
    next hab =>
      have hba : le b a = true := by
        rcases htot a b with h' | h'
        · exact absurd h' (by simpa using hab)
        · exact h'
      refine List.pairwise_cons.mpr ⟨?_, insertOrd_pairwise htrans htot a bs hbs⟩
      intro c hc
      rcases mem_insertOrd.mp hc with rfl | hc
      · exact hba
      · exact hb c hc

theorem sortOrd_pairwise {α : Type} {le : α → α → Bool}
    (htrans : ∀ a b c, le a b = true → le b c = true → le a c = true)
    (htot : ∀ a b, le a b = true ∨ le b a = true) :
    ∀ l : List α, List.Pairwise (fun x y => le x y = true) (sortOrd le l)
  | [] => List.Pairwise.nil
  | a :: as => insertOrd_pairwise htrans htot a _ (sortOrd_pairwise htrans htot as)

theorem msgLE_trans (a b c : Message) (hab : msgLE a b = true) (hbc : msgLE b c = true) :
    msgLE a c = true := by
  simp only [msgLE, Bool.or_eq_true, Bool.and_eq_true, decide_eq_true_eq] at hab hbc ⊢
  omega

theorem msgLE_total (a b : Message) : msgLE a b = true ∨ msgLE b a = true := by
  simp only [msgLE, Bool.or_eq_true, Bool.and_eq_true, decide_eq_true_eq]
  omega

/-- A map over a list is pointwise related to the list. -/
theorem forall2_of_map {α : Type} {P : α → α → Prop} (f : α → α)
    (h : ∀ m, P m (f m)) : ∀ l : List α, List.Forall₂ P l (l.map f)
  | [] => List.Forall₂.nil
  | a :: as => List.Forall₂.cons (h a) (forall2_of_map f h as)

/- ----- C4 ----- -/

/-- Claim C4: the rule-based priority score is the sum of +3 for a
mention, +2 for a question, +1 for present text longer than 100
characters, +2 for a flagged sender; it is total, absent text
contributes 0 from the text signal, a long-text-only message scores
exactly 1, an all-signal message scores 7 (8 when also long), and the
score never exceeds 8. -/
theorem calculate_priority_score_spec (text : Option String) (m q f : Bool) :
    calculate_priority_score text m q f
      = (if m then 3 else 0) + (if q then 2 else 0)
        + (if (text.elim false fun t => decide (100 < t.length)) then 1 else 0)
        + (if f then 2 else 0)
    ∧ calculate_priority_score text m q f ≤ 8
    ∧ ((text.elim false fun t => decide (100 < t.length)) = true →
        calculate_priority_score text false false false = 1)
    ∧ calculate_priority_score text true true true
      = (if (text.elim false fun t => decide (100 < t.length)) then 8 else 7)
    ∧ calculate_priority_score none m q f
      = (if m then 3 else 0) + (if q then 2 else 0) + (if f then 2 else 0) := by
  have hmatch : (match text with
      | some t => decide (MIN_LONG_MESSAGE_LENGTH < t.length)
      | none => false) = (text.elim false fun t => decide (100 < t.length)) := by
    cases text <;> rfl
  refine ⟨?_, ?_, ?_, ?_, ?_⟩ <;>
    simp only [calculate_priority_score, SCORE_MENTION, SCORE_QUESTION,
      SCORE_LONG_MESSAGE, SCORE_HIGH_PRIORITY_USER, hmatch] <;>
    cases m <;> cases q <;> cases f <;>
    cases h : (text.elim false fun t => decide (100 < t.length)) <;>
    simp [h]

/-- Witness for C4 at a concrete long message with all signals. -/
theorem calculate_priority_score_spec_witness :
    calculate_priority_score
        (some "aaaaaaaaaaaaaaaaaaaaaaaaaaaaaaaaaaaaaaaaaaaaaaaaaaaaaaaaaaaaaaaaaaaaaaaaaaaaaaaaaaaaaaaaaaaaaaaaaaaaa")
        true true true
      = (if true then 3 else 0) + (if true then 2 else 0)
        + (if ((some "aaaaaaaaaaaaaaaaaaaaaaaaaaaaaaaaaaaaaaaaaaaaaaaaaaaaaaaaaaaaaaaaaaaaaaaaaaaaaaaaaaaaaaaaaaaaaaaaaaaaa" : Option String).elim false fun t => decide (100 < t.length)) then 1 else 0)
        + (if true then 2 else 0)
    ∧ calculate_priority_score
        (some "aaaaaaaaaaaaaaaaaaaaaaaaaaaaaaaaaaaaaaaaaaaaaaaaaaaaaaaaaaaaaaaaaaaaaaaaaaaaaaaaaaaaaaaaaaaaaaaaaaaaa")
        true true true ≤ 8 := by
  have h := calculate_priority_score_spec
    (some "aaaaaaaaaaaaaaaaaaaaaaaaaaaaaaaaaaaaaaaaaaaaaaaaaaaaaaaaaaaaaaaaaaaaaaaaaaaaaaaaaaaaaaaaaaaaaaaaaaaaa")
    true true true
  exact ⟨h.1, h.2.1⟩

/- ----- C5 ----- -/

/-- Claim C5: when the scoring oracle is called and the call fails in
any way (timeout, transport error, missing client library, or a
non-numeric response), the AI path yields None instead of raising, and
the score persisted by save_message equals the rule-based score computed
from the same message attributes. -/
theorem ai_failure_falls_back_to_rule_based (ai_enabled : Bool)
    (text : Option String) (o : OracleOutcome) (m q f : Bool)
    (hcall : oracle_called text = true) (hfail : oracle_call_failed o = true) :
    calculate_ai_priority_score text o = none
    ∧ save_message_score ai_enabled text o m q f = calculate_priority_score text m q f := by
  obtain ⟨t, rfl⟩ : ∃ t, text = some t := by
    cases text with
    | none => simp [oracle_called] at hcall
    | some t => exact ⟨t, rfl⟩
  have hlen : ¬ t.length < 1 := by
    simp [oracle_called] at hcall
    omega
  have hai : calculate_ai_priority_score (some t) o = none := by
    cases o with
    | response r =>
      simp only [oracle_call_failed, Option.isNone_iff_eq_none] at hfail
      simp [calculate_ai_priority_score, hlen, hfail]
    | timeout => simp [calculate_ai_priority_score, hlen]
    | transportError => simp [calculate_ai_priority_score, hlen]
    | notInstalled => simp [calculate_ai_priority_score, hlen]
  refine ⟨hai, ?_⟩
  cases ai_enabled <;> simp [save_message_score, hai]

/-- Witness for C5: a timed-out oracle call on a concrete message. -/
theorem ai_failure_falls_back_witness :
    oracle_called (some "hello") = true
    ∧ oracle_call_failed .timeout = true
    ∧ (calculate_ai_priority_score (some "hello") .timeout = none
       ∧ save_message_score true (some "hello") .timeout true false true
         = calculate_priority_score (some "hello") true false true) :=
  ⟨by decide, by decide,
    ai_failure_falls_back_to_rule_based true (some "hello") .timeout true false true
      (by decide) (by decide)⟩

/- ----- C3 ----- -/

/-- Claim C3: a digest selection returns only records inside the
lookback window, unlabeled, not yet included, with score at least the
minimum, whose chat id is not in the excluded set (and hence, when the
excluded set is built from the active toggles, not muted and not
oversized); the result is ordered by score descending then recency
descending and capped at the limit; the updated table marks exactly the
selected ids as included and changes nothing else; and every qualifying
record left out is ordered no earlier than every selected one, so the
selection is the top slice. -/
theorem digest_selection_spec (db : List Message) (cutoff min_priority : Int)
    (excluded : List Int) (limit : Nat) (now : Int) (ignore_muted : Bool)
    (muted : List Int) (ignore_large_groups : Bool) (max_group_size : Nat)
    (group_sizes : List (Int × Nat)) :
    (∀ m ∈ digest_select db cutoff min_priority excluded limit,
        cutoff ≤ m.timestamp ∧ m.label = none ∧ m.included_in_summary = false
        ∧ min_priority ≤ m.priority_score ∧ m.chat_id ∉ excluded)
    ∧ (excluded = digest_excluded_chat_ids ignore_muted muted ignore_large_groups
          max_group_size group_sizes →
        ∀ m ∈ digest_select db cutoff min_priority excluded limit,
          (ignore_muted = true → m.chat_id ∉ muted)
          ∧ (ignore_large_groups = true →
              m.chat_id ∉ get_large_group_ids max_group_size group_sizes))
    ∧ (digest_select db cutoff min_priority excluded limit).length ≤ limit
    ∧ List.Pairwise (fun a b => msgLE a b = true)
        (digest_select db cutoff min_priority excluded limit)
    ∧ List.Forall₂ (fun m m' =>
        m'.id = m.id
        ∧ m'.included_in_summary
            = (m.included_in_summary
               || decide (m.id ∈ (digest_select db cutoff min_priority excluded limit).map
                    Message.id))
        ∧ m'.label = m.label ∧ m'.warning_sent = m.warning_sent
        ∧ m'.priority_score = m.priority_score ∧ m'.timestamp = m.timestamp
        ∧ m'.chat_id = m.chat_id)
        db (get_unlabeled_messages db cutoff min_priority excluded limit now).2
    ∧ (∀ m ∈ db, msgMatches cutoff min_priority excluded m = true →
        m ∉ digest_select db cutoff min_priority excluded limit →
        ∀ s ∈ digest_select db cutoff min_priority excluded limit, msgLE s m = true) := by
  have hsubF : ∀ m ∈ digest_select db cutoff min_priority excluded limit,
      msgMatches cutoff min_priority excluded m = true := by
    intro m hm
    have hmS : m ∈ sortOrd msgLE (db.filter (msgMatches cutoff min_priority excluded)) :=
      List.take_subset _ _ hm
    exact List.of_mem_filter (mem_sortOrd.mp hmS)
  have hnotex : ∀ m ∈ digest_select db cutoff min_priority excluded limit,
      m.chat_id ∉ excluded := by
    intro m hm
    have h := hsubF m hm
    simp only [msgMatches, Bool.and_eq_true, Bool.or_eq_true, Bool.not_eq_true',
      decide_eq_true_eq, decide_eq_false_iff_not] at h
    rcases h.2 with h5 | h5
    · cases excluded with
      | nil => simp
      | cons a as => simp at h5
    · exact h5
  refine ⟨?_, ?_, ?_, ?_, ?_, ?_⟩
  · intro m hm
    have h := hsubF m hm
    simp only [msgMatches, Bool.and_eq_true, Bool.or_eq_true, Bool.not_eq_true',
      decide_eq_true_eq, Option.isNone_iff_eq_none] at h
    exact ⟨h.1.1.1.1, h.1.1.1.2, h.1.1.2, h.1.2, hnotex m hm⟩
  · intro hexcl m hm
    have hne := hnotex m hm
    subst hexcl
    simp only [digest_excluded_chat_ids, List.mem_append, not_or] at hne
    constructor
    · intro him
      have h1 := hne.1
      rw [him] at h1
      simpa using h1
    · intro hil
      have h2 := hne.2
      rw [hil] at h2
      simpa using h2
  · simp only [digest_select, List.length_take]
    exact Nat.min_le_left _ _
  · exact List.Pairwise.sublist (List.take_sublist _ _)
      (sortOrd_pairwise msgLE_trans msgLE_total _)
  · show List.Forall₂ _ db (digest_mark db _ now)
    exact forall2_of_map _
      (by
        intro m
        by_cases hid : m.id ∈ (digest_select db cutoff min_priority excluded limit).map
            Message.id <;>
          simp [hid])
      db
  · intro m hmdb hmatch hnot s hs
    have hmF : m ∈ db.filter (msgMatches cutoff min_priority excluded) :=
      List.mem_filter.mpr ⟨hmdb, hmatch⟩
    have hmS : m ∈ sortOrd msgLE (db.filter (msgMatches cutoff min_priority excluded)) :=
      mem_sortOrd.mpr hmF
    have hpairS : List.Pairwise (fun a b => msgLE a b = true)
        (sortOrd msgLE (db.filter (msgMatches cutoff min_priority excluded))) :=
      sortOrd_pairwise msgLE_trans msgLE_total _
    rw [← List.take_append_drop limit
      (sortOrd msgLE (db.filter (msgMatches cutoff min_priority excluded)))] at hmS hpairS
    rcases List.mem_append.mp hmS with h | h
    · exact absurd h hnot
    · exact (List.pairwise_append.mp hpairS).2.2 s hs m h

/-- Witness for C3: the ten-qualifying-records, cap-5 scenario.  The
selection returns exactly the five highest-scoring rows (ids 4, 10, 9,
3, 1 — score ties between ids 9 and 3 broken by recency), and exactly
those five (plus the previously included row 12) are marked included in
the updated table. -/
theorem digest_selection_spec_witness :
    (digest_select demoDb 0 1 [] 5).length ≤ 5
    ∧ List.Pairwise (fun a b => msgLE a b = true) (digest_select demoDb 0 1 [] 5)
    ∧ (digest_select demoDb 0 1 [] 5).map Message.id = [4, 10, 9, 3, 1]
    ∧ ((get_unlabeled_messages demoDb 0 1 [] 5 99).2.filter
        (fun m => m.included_in_summary)).map Message.id = [1, 3, 4, 9, 10, 12] :=
  ⟨(digest_selection_spec demoDb 0 1 [] 5 99 false [] false 0 []).2.2.1,
   (digest_selection_spec demoDb 0 1 [] 5 99 false [] false 0 []).2.2.2.1,
   by decide, by decide⟩

/- ----- C1 ----- -/

/-- Claim C1 (refuted; the code lacks the claimed guard): the digest
selection and its marking are two separate awaited statements
(scheduler.py:116 and 122) and the UPDATE is keyed only on the selected
ids without re-checking included_in_summary, so under the schedule
select-A, select-B, update-A, update-B — realizable because control can
return to the event loop between the two statements and neither backend
configuration serializes the two read-then-write transactions — two
invocations over overlapping windows (cutoffs 0 and 5, record timestamp
10) both return record id 1.  The first two conjuncts evaluate the two
racing SELECTs against the shared unmarked table; the third shows the
record is excluded only when the second SELECT runs after the first
invocation's UPDATE, i.e. only the serialized schedule is safe. -/
theorem digest_selection_race_double_includes :
    ((get_unlabeled_messages [mkMsg 1 5 10 2] 0 1 [] 15 50).1.map Message.id = [1])
    ∧ ((get_unlabeled_messages [mkMsg 1 5 10 2] 5 1 [] 15 60).1.map Message.id = [1])
    ∧ ((get_unlabeled_messages ((get_unlabeled_messages [mkMsg 1 5 10 2] 0 1 [] 15 50).2)
          5 1 [] 15 60).1.map Message.id = ([] : List Nat)) := by
  decide

/- ----- C2 ----- -/

theorem recordStep_mono (op : CoreOp) (m : Message) :
    (m.included_in_summary = true → (recordStep op m).included_in_summary = true)
    ∧ (m.warning_sent = true → (recordStep op m).warning_sent = true) := by
  cases op with
  | markIncluded ids now => by_cases h : m.id ∈ ids <;> simp [recordStep, h]
  | markWarningSent i now => by_cases h : m.id = i <;> simp [recordStep, h]
  | applyLabel i l now => by_cases h : m.id = i <;> simp [recordStep, h]

theorem foldl_recordStep_mono (ops : List CoreOp) : ∀ m : Message,
    (m.included_in_summary = true →
      (ops.foldl (fun m op => recordStep op m) m).included_in_summary = true)
    ∧ (m.warning_sent = true →
      (ops.foldl (fun m op => recordStep op m) m).warning_sent = true) := by
  induction ops with
  | nil => intro m; simp
  | cons op rest ih =>
    intro m
    simp only [List.foldl_cons]
    constructor
    · intro h
      exact (ih (recordStep op m)).1 ((recordStep_mono op m).1 h)
    · intro h
      exact (ih (recordStep op m)).2 ((recordStep_mono op m).2 h)

theorem foldl_applyCoreOp_eq_map (ops : List CoreOp) : ∀ db : List Message,
    List.foldl applyCoreOp db ops
      = db.map (fun m => ops.foldl (fun m op => recordStep op m) m) := by
  induction ops with
  | nil => intro db; simp
  | cons op rest ih =>
    intro db
    simp only [List.foldl_cons]
    rw [show applyCoreOp db op = db.map (recordStep op) from rfl, ih, List.map_map]
    rfl

/-- Claim C2: over any sequence of core record-mutating operations
(digest marking, warning marking, label updates), the digest-inclusion
flag and the alert-sent flag of every row only ever go from false to
true — no core operation resets either flag — and a freshly persisted
record starts with both flags false, so each flag transitions at most
once over the record's lifetime. -/
theorem message_flags_monotone (ops : List CoreOp) (db : List Message) :
    List.Forall₂ (fun m m' =>
      (m.included_in_summary = true → m'.included_in_summary = true)
      ∧ (m.warning_sent = true → m'.warning_sent = true))
      db (List.foldl applyCoreOp db ops)
    ∧ (∀ (i : Nat) (tmi cid uid : Int) (ctitle uname mtext tsum : Option String)
        (ctype : String) (ts : Int) (hm iq : Bool) (ml : Option Nat) (ps : Int),
        (save_message_record i tmi cid uid ctitle uname mtext tsum ctype ts hm iq
            ml ps).included_in_summary = false
        ∧ (save_message_record i tmi cid uid ctitle uname mtext tsum ctype ts hm iq
            ml ps).warning_sent = false) := by
  constructor
  · rw [foldl_applyCoreOp_eq_map]
    exact forall2_of_map _ (foldl_recordStep_mono ops) db
  · intro i tmi cid uid ctitle uname mtext tsum ctype ts hm iq ml ps
    exact ⟨rfl, rfl⟩

/-- Witness for C2: a concrete op sequence that marks, warns and labels
the single row of a concrete table. -/
theorem message_flags_monotone_witness :
    List.Forall₂ (fun m m' =>
      (m.included_in_summary = true → m'.included_in_summary = true)
      ∧ (m.warning_sent = true → m'.warning_sent = true))
      [mkMsg 1 2 3 4]
      (List.foldl applyCoreOp [mkMsg 1 2 3 4]
        [CoreOp.markIncluded [1] 7, CoreOp.markWarningSent 1 8,
         CoreOp.applyLabel 1 "high" 9]) :=
  (message_flags_monotone
    [CoreOp.markIncluded [1] 7, CoreOp.markWarningSent 1 8, CoreOp.applyLabel 1 "high" 9]
    [mkMsg 1 2 3 4]).1

/- ----- C6 ----- -/

/-- Claim C6 counterexample: labeling the same existing record twice
with the same label produces the same confirmation both times, but does
NOT leave the same stored record state after each application — the
second application overwrites the label timestamp (bot.py:223), so the
table after the second application (labeled_at = 200) differs from the
table after the first (labeled_at = 100). -/
theorem label_twice_changes_stored_state :
    (handle_label_callback [mkMsg 1 5 10 2] 1 "high" 100).2
      = (handle_label_callback (handle_label_callback [mkMsg 1 5 10 2] 1 "high" 100).1
          1 "high" 200).2
    ∧ (handle_label_callback (handle_label_callback [mkMsg 1 5 10 2] 1 "high" 100).1
        1 "high" 200).1
      ≠ (handle_label_callback [mkMsg 1 5 10 2] 1 "high" 100).1 := by
  decide

theorem find_id_of_map_label (message_id : Nat) (f : Message → Message)
    (hf : ∀ m, (f m).id = m.id) :
    ∀ db : List Message,
      (db.map f).find? (fun m => decide (m.id = message_id))
        = (db.find? (fun m => decide (m.id = message_id))).map f := by
  intro db
  induction db with
  | nil => rfl
  | cons a as ih =>
    by_cases h : a.id = message_id
    · rw [List.map_cons, List.find?_cons_of_pos, List.find?_cons_of_pos] <;>
        simp [hf, h]
    · rw [List.map_cons, List.find?_cons_of_neg, List.find?_cons_of_neg, ih] <;>
        simp [hf, h]

/-- Claim C6 amended: labeling the same existing record twice with a
valid label is idempotent up to the label timestamp — both applications
return the identical confirmation, and the stored table after the
second application equals the table after the first with only
labeled_at refreshed to the second application time (label and every
other field unchanged). -/
theorem label_idempotent_up_to_timestamp (db : List Message) (message_id : Nat)
    (label : String) (t1 t2 : Int)
    (hvalid : (decide (label = "high") || decide (label = "medium")
      || decide (label = "low")) = true)
    (hfound : (db.find? (fun m => decide (m.id = message_id))).isSome = true) :
    (handle_label_callback db message_id label t1).2
      = .confirmed (format_label_confirmed label)
    ∧ (handle_label_callback (handle_label_callback db message_id label t1).1
        message_id label t2).2
      = .confirmed (format_label_confirmed label)
    ∧ (handle_label_callback db message_id label t1).1
      = db.map (fun m => if m.id = message_id
          then { m with label := some label, labeled_at := some t1 } else m)
    ∧ (handle_label_callback (handle_label_callback db message_id label t1).1
        message_id label t2).1
      = (handle_label_callback db message_id label t1).1.map
          (fun m => if m.id = message_id then { m with labeled_at := some t2 } else m) := by
  obtain ⟨m0, hm0⟩ := Option.isSome_iff_exists.mp hfound
  have hid1 : ∀ m : Message,
      ((fun m => if m.id = message_id
        then { m with label := some label, labeled_at := some t1 } else m) m).id = m.id := by
    intro m
    by_cases h : m.id = message_id <;> simp [h]
  have hfst : (handle_label_callback db message_id label t1).1
      = db.map (fun m => if m.id = message_id
          then { m with label := some label, labeled_at := some t1 } else m) := by
    simp only [handle_label_callback, hvalid, Bool.not_true, Bool.false_eq_true,
      if_false, hm0]
  have hfindmap : ((db.map (fun m => if m.id = message_id
      then { m with label := some label, labeled_at := some t1 } else m)).find?
        (fun m => decide (m.id = message_id)))
      = some (if m0.id = message_id
          then { m0 with label := some label, labeled_at := some t1 } else m0) := by
    rw [find_id_of_map_label message_id _ hid1, hm0]
    rfl
  refine ⟨?_, ?_, hfst, ?_⟩
  · simp only [handle_label_callback, hvalid, Bool.not_true, Bool.false_eq_true,
      if_false, hm0]
  · rw [hfst]
    simp only [handle_label_callback, hvalid, Bool.not_true, Bool.false_eq_true,
      if_false, hfindmap]
  · rw [hfst]
    have hsnd : (handle_label_callback (db.map (fun m => if m.id = message_id
        then { m with label := some label, labeled_at := some t1 } else m))
        message_id label t2).1
        = (db.map (fun m => if m.id = message_id
            then { m with label := some label, labeled_at := some t1 } else m)).map
            (fun m => if m.id = message_id
              then { m with label := some label, labeled_at := some t2 } else m) := by
      simp only [handle_label_callback, hvalid, Bool.not_true, Bool.false_eq_true,
        if_false, hfindmap]
    rw [hsnd, List.map_map, List.map_map]
    congr 1
    funext m
    by_cases h : m.id = message_id <;> simp [Function.comp, h]

/-- Witness for C6 amended, at a concrete record and two distinct label
times. -/
theorem label_idempotent_up_to_timestamp_witness :
    (handle_label_callback [mkMsg 1 5 10 2] 1 "high" 100).2
      = .confirmed (format_label_confirmed "high")
    ∧ (handle_label_callback (handle_label_callback [mkMsg 1 5 10 2] 1 "high" 100).1
        1 "high" 200).2
      = .confirmed (format_label_confirmed "high")
    ∧ (handle_label_callback [mkMsg 1 5 10 2] 1 "high" 100).1
      = [mkMsg 1 5 10 2].map (fun m => if m.id = 1
          then { m with label := some "high", labeled_at := some 100 } else m)
    ∧ (handle_label_callback (handle_label_callback [mkMsg 1 5 10 2] 1 "high" 100).1
        1 "high" 200).1
      = (handle_label_callback [mkMsg 1 5 10 2] 1 "high" 100).1.map
          (fun m => if m.id = 1 then { m with labeled_at := some 200 } else m) :=
  label_idempotent_up_to_timestamp [mkMsg 1 5 10 2] 1 "high" 100 200
    (by decide) (by decide)

/- ----- C7 ----- -/

/-- Claim C7: for a valid duration and an existing record, a failed
transport mute call leaves the mute cache unchanged and reports an
error, while a successful one returns the confirmation and the cache —
as read back through get_muted_chats — already contains the muted
conversation id when the handler returns, before any scheduled refresh
runs. -/
theorem mute_callback_cache_spec (db : List Message) (message_id : Nat)
    (chat_id : Int) (action disp : String) (muted : List Int)
    (hdur : duration_display action = some disp)
    (hfound : (db.find? (fun m => decide (m.id = message_id))).isSome = true) :
    handle_mute_callback db message_id chat_id action false muted = (muted, .muteError)
    ∧ (handle_mute_callback db message_id chat_id action true muted).2 = .confirmed disp
    ∧ chat_id ∈ get_muted_chats (handle_mute_callback db message_id chat_id action true muted).1 := by
  obtain ⟨m0, hm0⟩ := Option.isSome_iff_exists.mp hfound
  simp only [handle_mute_callback, hdur, hm0]
  refine ⟨rfl, rfl, ?_⟩
  simp only [get_muted_chats, add_muted_chat]
  by_cases h : chat_id ∈ muted <;> simp [h]

/-- Witness for C7: muting chat 77 for one hour from a concrete record,
against an initially empty cache. -/
theorem mute_callback_cache_spec_witness :
    handle_mute_callback [mkMsg 1 77 10 2] 1 77 "mute_1h" false [] = ([], .muteError)
    ∧ (handle_mute_callback [mkMsg 1 77 10 2] 1 77 "mute_1h" true []).2
      = .confirmed "1 hour"
    ∧ (77 : Int) ∈ get_muted_chats
        (handle_mute_callback [mkMsg 1 77 10 2] 1 77 "mute_1h" true []).1 :=
  mute_callback_cache_spec [mkMsg 1 77 10 2] 1 77 "mute_1h" "1 hour" []
    (by decide) (by decide)

/- ----- C8 ----- -/

/-- Claim C8 counterexample: the mute-state sweep does not behave as
claimed.  First conjunct: with chat 1 gathered as muted before a
rate-limit signal from the dialog enumeration, the resulting cache is
empty — the entries gathered so far are NOT kept (they are discarded
and the prior cache kept instead, userbot.py:341-347).  Second
conjunct: a completed mute sweep that gathered nothing replaces the
prior cache {7} with the empty set (userbot.py:333) instead of leaving
it untouched. -/
theorem muted_sweep_violates_refresh_claims :
    refresh_muted_chats
        [.dialog ⟨1, some ⟨true, none⟩⟩, .floodWait 60] [] 0 = []
    ∧ refresh_muted_chats [.dialog ⟨42, some ⟨false, none⟩⟩] [7] 0 = [] := by
  decide

theorem refresh_muted_chats_go_cache_irrel :
    ∀ (events : List MuteSweepEvent) (now : Int) (c1 c2 acc : List Int),
      noFloodMute events = true →
      refresh_muted_chats_go c1 now events acc = refresh_muted_chats_go c2 now events acc := by
  intro events
  induction events with
  | nil => intro now c1 c2 acc h; rfl
  | cons e rest ih =>
    intro now c1 c2 acc h
    cases e with
    | dialog d =>
      simp only [refresh_muted_chats_go]
      exact ih now c1 c2 _ (by simpa [noFloodMute] using h)
    | dialogError =>
      simp only [refresh_muted_chats_go]
      exact ih now c1 c2 acc (by simpa [noFloodMute] using h)
    | floodWait s => simp [noFloodMute] at h

/-- Claim C8 amended: the group-size sweep behaves as claimed — a
per-conversation failure is skipped, a rate-limit signal ends the sweep
keeping the entries gathered so far, and a sweep that gathered nothing
leaves the existing cache untouched while a nonempty gather replaces
it.  The mute-state sweep differs: a per-conversation failure is
skipped, but a rate-limit signal from the dialog enumeration aborts the
entire refresh — the prior cache is kept and the entries gathered so
far are discarded — and a completed sweep replaces the cache wholesale
independent of its prior value, even when the sweep gathered nothing. -/
theorem refresh_sweeps_amended_spec :
    (∀ rest acc, refresh_group_sizes_go (.dialogError :: rest) acc
        = refresh_group_sizes_go rest acc)
    ∧ (∀ s rest acc, refresh_group_sizes_go (.sizeFloodWait s :: rest) acc = acc)
    ∧ (∀ events cache, refresh_group_sizes_go events [] = [] →
        refresh_group_sizes events cache = cache)
    ∧ (∀ events cache, refresh_group_sizes_go events [] ≠ [] →
        refresh_group_sizes events cache = refresh_group_sizes_go events [])
    ∧ (∀ cache now rest acc, refresh_muted_chats_go cache now (.dialogError :: rest) acc
        = refresh_muted_chats_go cache now rest acc)
    ∧ (∀ cache now s rest acc,
        refresh_muted_chats_go cache now (.floodWait s :: rest) acc = cache)
    ∧ (∀ events now c1 c2, noFloodMute events = true →
        refresh_muted_chats events c1 now = refresh_muted_chats events c2 now) := by
  refine ⟨?_, ?_, ?_, ?_, ?_, ?_, ?_⟩
  · intro rest acc
    rfl
  · intro s rest acc
    rfl
  · intro events cache h
    simp [refresh_group_sizes, h]
  · intro events cache h
    cases hg : refresh_group_sizes_go events [] with
    | nil => exact absurd hg h
    | cons a l => simp [refresh_group_sizes, hg]
  · intro cache now rest acc
    rfl
  · intro cache now s rest acc
    rfl
  · intro events now c1 c2 h
    exact refresh_muted_chats_go_cache_irrel events now c1 c2 [] h

/-- Witness for C8 amended: concrete sweeps — a flood-terminated group
sweep keeps its one gathered entry, an empty group sweep keeps the old
cache, and a completed mute sweep produces the same result from two
different prior caches. -/
theorem refresh_sweeps_amended_spec_witness :
    refresh_group_sizes
        [.groupDialog 4 (some 9), .sizeFloodWait 30, .groupDialog 5 (some 2)] [(8, 1)]
      = refresh_group_sizes_go
          [.groupDialog 4 (some 9), .sizeFloodWait 30, .groupDialog 5 (some 2)] []
    ∧ refresh_group_sizes [.nonGroup, .dialogError] [(8, 1)] = [(8, 1)]
    ∧ refresh_muted_chats [.dialog ⟨1, some ⟨true, none⟩⟩] [5] 0
      = refresh_muted_chats [.dialog ⟨1, some ⟨true, none⟩⟩] [9] 0 :=
  ⟨refresh_sweeps_amended_spec.2.2.2.1
      [.groupDialog 4 (some 9), .sizeFloodWait 30, .groupDialog 5 (some 2)] [(8, 1)]
      (by decide),
   refresh_sweeps_amended_spec.2.2.1 [.nonGroup, .dialogError] [(8, 1)] (by decide),
   refresh_sweeps_amended_spec.2.2.2.2.2.2
      [.dialog ⟨1, some ⟨true, none⟩⟩] 0 [5] [9] (by decide)⟩

/- ----- C9 ----- -/

/-- Claim C9: a group-type message whose conversation is absent from
the group-size cache is never dropped by the oversized-group filter,
whatever the toggles and the group's true size (the true size is not
even an input to the decision); and when the other filter stages pass
(not self, not the bot, nonempty text, not cached as muted), the
message is processed. -/
theorem group_size_filter_fails_open (inp : IngestInput)
    (ignore_large_groups : Bool) (max_group_size : Nat) (ignore_muted_chats : Bool)
    (group_sizes : List (Int × Nat)) (muted : List Int)
    (hgroup : isGroupType inp.chat_type = true)
    (hmiss : sizesLookup group_sizes inp.chat_id = none) :
    handle_new_message_decision inp ignore_large_groups max_group_size ignore_muted_chats
        group_sizes muted ≠ .drop .oversizedGroup
    ∧ (matchesId inp.sender inp.client_user_id = false →
       matchesId inp.sender inp.bot_user_id = false →
       textFalsy inp.raw_text = false →
       inp.chat_id ∉ muted →
       handle_new_message_decision inp ignore_large_groups max_group_size ignore_muted_chats
         group_sizes muted = .process) := by
  have hpriv : inp.chat_type ≠ "private" := by
    intro hc
    rw [hc] at hgroup
    simp [isGroupType] at hgroup
  have hmc : mute_check_id inp = inp.chat_id := by
    simp [mute_check_id, hpriv]
  constructor
  · by_cases h1 : matchesId inp.sender inp.client_user_id = true <;>
      by_cases h2 : matchesId inp.sender inp.bot_user_id = true <;>
      by_cases h3 : textFalsy inp.raw_text = true <;>
      by_cases h4 : (ignore_muted_chats && decide (mute_check_id inp ∈ muted)) = true <;>
      simp [handle_new_message_decision, hmiss, h1, h2, h3, h4]
  · intro hs hb ht hm
    simp [handle_new_message_decision, hs, hb, ht, hmiss, hmc, hm]

/-- Witness for C9: a supergroup message with an empty size cache is
processed even with both toggles on. -/
theorem group_size_filter_fails_open_witness :
    handle_new_message_decision ⟨some 2, 10, 11, some "hey", "supergroup", 99⟩
        true 20 true [] [] = .process :=
  (group_size_filter_fails_open ⟨some 2, 10, 11, some "hey", "supergroup", 99⟩
      true 20 true [] [] (by decide) (by decide)).2
    (by decide) (by decide) (by decide) (by decide)

/- ----- C10 ----- -/

/-- Claim C10: the two oversized checks disagree at the boundary — when
a group's cached participant count equals the threshold exactly, the
ingestion pipeline drops its messages (`>=` comparison,
userbot.py:727), yet the group is not in the digest exclusion set built
by get_large_group_ids (`>` comparison, userbot.py:515). -/
theorem oversize_boundary_disagreement (inp : IngestInput) (n : Nat)
    (ignore_muted_chats : Bool) (group_sizes : List (Int × Nat)) (muted : List Int)
    (hgroup : isGroupType inp.chat_type = true)
    (hs : matchesId inp.sender inp.client_user_id = false)
    (hb : matchesId inp.sender inp.bot_user_id = false)
    (ht : textFalsy inp.raw_text = false)
    (hsize : sizesLookup group_sizes inp.chat_id = some n)
    (hnodup : (group_sizes.map Prod.fst).Nodup) :
    handle_new_message_decision inp true n ignore_muted_chats group_sizes muted
      = .drop .oversizedGroup
    ∧ inp.chat_id ∉ get_large_group_ids n group_sizes := by
  constructor
  · simp [handle_new_message_decision, hs, hb, ht, hgroup, hsize]
  · intro hmem
    obtain ⟨p, hpfil, hpfst⟩ := List.mem_map.mp hmem
    have hpmem := List.mem_filter.mp hpfil
    have hplt : n < p.2 := by simpa using hpmem.2
    obtain ⟨q, hq, hq2⟩ : ∃ q, group_sizes.find?
        (fun p => decide (p.1 = inp.chat_id)) = some q ∧ q.2 = n := by
      unfold sizesLookup at hsize
      cases hfq : group_sizes.find? (fun p => decide (p.1 = inp.chat_id)) with
      | none => rw [hfq] at hsize; simp at hsize
      | some q =>
        rw [hfq] at hsize
        exact ⟨q, rfl, by simpa using hsize⟩
    have hqmem : q ∈ group_sizes := List.mem_of_find?_eq_some hq
    have hq1 : q.1 = inp.chat_id := by
      have := List.find?_some hq
      simpa using this
    have hpq : p = q :=
      List.inj_on_of_nodup_map hnodup hpmem.1 hqmem (by rw [hpfst, hq1])
    rw [hpq, hq2] at hplt
    omega

/-- Witness for C10: a group cached at exactly the threshold 20 is
dropped at ingestion but absent from the digest exclusion set. -/
theorem oversize_boundary_disagreement_witness :
    handle_new_message_decision ⟨some 2, 10, 11, some "hey", "group", 5⟩
        true 20 false [(5, 20)] [] = .drop .oversizedGroup
    ∧ (5 : Int) ∉ get_large_group_ids 20 [(5, 20)] :=
  oversize_boundary_disagreement ⟨some 2, 10, 11, some "hey", "group", 5⟩ 20
    false [(5, 20)] [] (by decide) (by decide) (by decide) (by decide)
    (by decide) (by decide)
